import Mathlib

/-!
Verification development for the RushJob poll–diff–match–notify pipeline.

The Python services under `backend/app/services/` are shallowly embedded as
executable Lean definitions: strings stay `String`, Python `Optional[str]`
fields become `Option String`, SQLAlchemy rows become structures, database
tables become lists of rows, and the stateful polling/notification code
becomes explicit state-passing functions.  Python truthiness on strings and
lists (`if x:`) is modelled by explicit emptiness tests.
-/

namespace RushJob

/-- Lower-case a string character by character.  Models Python `str.lower()`
on the ASCII data this pipeline manipulates. -/
def strLower (s : String) : String := String.mk (s.data.map Char.toLower)

/-- Upper-case a string character by character.  Models Python `str.upper()`. -/
def strUpper (s : String) : String := String.mk (s.data.map Char.toUpper)

/-- `listInfix sub l` decides whether `sub` occurs contiguously inside `l`. -/
def listInfix (sub : List Char) : List Char → Bool
  | [] => sub.isEmpty
  | c :: cs => sub.isPrefixOf (c :: cs) || listInfix sub cs

/-- `containsStr hay sub` models Python's substring test `sub in hay`. -/
def containsStr (hay sub : String) : Bool := listInfix sub.data hay.data

/-- `startsWithStr s p` models Python `s.startswith(p)`. -/
def startsWithStr (s p : String) : Bool := p.data.isPrefixOf s.data

/-- `endsWithStr s p` models Python `s.endswith(p)`. -/
def endsWithStr (s p : String) : Bool := p.data.reverse.isPrefixOf s.data.reverse

/-- Remove leading and trailing whitespace: Python `str.strip()`. -/
def pyStrip (s : String) : String :=
  String.mk (((s.data.dropWhile Char.isWhitespace).reverse.dropWhile Char.isWhitespace).reverse)

/-- Remove trailing whitespace (the right half of Python `str.strip()`). -/
def rstrip (s : String) : String :=
  String.mk (s.data.reverse.dropWhile Char.isWhitespace).reverse

/-- Fuelled worker for `splitOnList`; the fuel is structurally consumed so
that the definition reduces inside the kernel.  With fuel at least the length
of the list the fuel never runs out. -/
def splitOnGo (sep : List Char) : Nat → List Char → List (List Char)
  | _, [] => [[]]
  | 0, l => [l]
  | fuel + 1, c :: cs =>
    if sep.isPrefixOf (c :: cs) then
      [] :: splitOnGo sep fuel (cs.drop (sep.length - 1))
    else
      match splitOnGo sep fuel cs with
      | [] => [[c]]
      | p :: ps => (c :: p) :: ps

/-- Split on every occurrence of a separator, left to right, non-overlapping:
Python `s.split(sep)` for a non-empty separator. -/
def splitOnList (sep l : List Char) : List (List Char) := splitOnGo sep l.length l

/-- String version of `splitOnList`. -/
def splitOnStr (s sep : String) : List String :=
  (splitOnList sep.data s.data).map String.mk

/-! ## Location Resolver (`app/services/location_matcher.py`) -/

/-- The `LocationMatcher.location_mappings` table, verbatim from
`location_matcher.py` (insertion order preserved). -/
def location_mappings : List (String × List String) := [
  ("chicago", ["chicago", "chi", "illinois", "il"]),
  ("new york", ["new york", "nyc", "ny", "new york city", "manhattan"]),
  ("san francisco", ["san francisco", "sf", "ssf", "south san francisco"]),
  ("seattle", ["seattle", "sea", "washington", "wa"]),
  ("atlanta", ["atlanta", "atl", "georgia", "ga"]),
  ("boston", ["boston", "massachusetts", "ma"]),
  ("texas", ["texas", "tx", "dallas", "austin", "houston"]),
  ("california", ["california", "ca", "calif"]),
  ("los angeles", ["los angeles", "la", "los angeles county"]),
  ("denver", ["denver", "colorado", "co"]),
  ("phoenix", ["phoenix", "arizona", "az"]),
  ("portland", ["portland", "oregon", "or"]),
  ("miami", ["miami", "florida", "fl"]),
  ("philadelphia", ["philadelphia", "philly", "pennsylvania", "pa"]),
  ("detroit", ["detroit", "michigan", "mi"]),
  ("las vegas", ["las vegas", "vegas", "nevada", "nv"]),
  ("salt lake city", ["salt lake city", "slc", "utah", "ut"]),
  ("minneapolis", ["minneapolis", "minnesota", "mn"]),
  ("nashville", ["nashville", "tennessee", "tn"]),
  ("raleigh", ["raleigh", "north carolina", "nc"]),
  ("charlotte", ["charlotte", "north carolina", "nc"]),
  ("richmond", ["richmond", "virginia", "va"]),
  ("pittsburgh", ["pittsburgh", "pennsylvania", "pa"]),
  ("remote", ["remote", "us-remote", "us remote", "remote us", "remote in us",
              "remote in the us", "work from home", "wfh", "telecommute",
              "distributed", "anywhere"]),
  ("us", ["us", "usa", "united states", "america", "amer", "national us"]),
  ("canada", ["canada", "ca", "toronto", "ca-remote", "can-remote",
              "ca-toronto", "vancouver", "montreal", "ottawa", "calgary"]),
  ("london", ["london", "uk", "united kingdom", "england", "great britain"]),
  ("dublin", ["dublin", "ireland", "dublin hq"]),
  ("berlin", ["berlin", "germany", "de-berlin", "deutschland"]),
  ("paris", ["paris", "france"]),
  ("madrid", ["madrid", "spain"]),
  ("barcelona", ["barcelona", "spain"]),
  ("bucharest", ["bucharest", "romania"]),
  ("amsterdam", ["amsterdam", "netherlands", "holland"]),
  ("zurich", ["zurich", "switzerland"]),
  ("stockholm", ["stockholm", "sweden"]),
  ("oslo", ["oslo", "norway"]),
  ("copenhagen", ["copenhagen", "denmark"]),
  ("helsinki", ["helsinki", "finland"]),
  ("vienna", ["vienna", "austria"]),
  ("warsaw", ["warsaw", "poland"]),
  ("prague", ["prague", "czech republic"]),
  ("budapest", ["budapest", "hungary"]),
  ("lisbon", ["lisbon", "portugal"]),
  ("rome", ["rome", "italy"]),
  ("milan", ["milan", "italy"]),
  ("tokyo", ["tokyo", "japan"]),
  ("singapore", ["singapore"]),
  ("sydney", ["sydney", "australia"]),
  ("melbourne", ["melbourne", "australia"]),
  ("bangalore", ["bangalore", "bengaluru", "india"]),
  ("mumbai", ["mumbai", "bombay", "india"]),
  ("delhi", ["delhi", "new delhi", "india"]),
  ("hyderabad", ["hyderabad", "india"]),
  ("pune", ["pune", "india"]),
  ("chennai", ["chennai", "madras", "india"]),
  ("hong kong", ["hong kong", "hk"]),
  ("seoul", ["seoul", "south korea", "korea"]),
  ("beijing", ["beijing", "china"]),
  ("shanghai", ["shanghai", "china"]),
  ("taipei", ["taipei", "taiwan"]),
  ("bangkok", ["bangkok", "thailand"]),
  ("manila", ["manila", "philippines"]),
  ("jakarta", ["jakarta", "indonesia"]),
  ("kuala lumpur", ["kuala lumpur", "malaysia"]),
  ("mexico city", ["mexico city", "mexico", "mx", "cdmx"]),
  ("sao paulo", ["sao paulo", "brazil"]),
  ("buenos aires", ["buenos aires", "argentina"]),
  ("santiago", ["santiago", "chile"]),
  ("bogota", ["bogota", "colombia"]),
  ("tel aviv", ["tel aviv", "israel"]),
  ("emea", ["emea", "europe", "europe middle east africa"]),
  ("apac", ["apac", "asia pacific", "asia-pacific"]),
  ("latam", ["latam", "latin america"]),
  ("mena", ["mena", "middle east north africa"])]

/-- Models `re.sub(r'^(us-|ca-|uk-)', '', s)` on an already lower-cased
string: the pattern is anchored, so at most one leading country-code chunk is
dropped. -/
def stripCcPre (s : String) : String :=
  if startsWithStr s "us-" || startsWithStr s "ca-" || startsWithStr s "uk-" then
    String.mk (s.data.drop 3)
  else s

/-- If `s` ends with `tag` preceded by at least one whitespace character,
return `s` with the tag and the whole whitespace run before it removed. -/
def stripTag (s tag : String) : Option String :=
  if endsWithStr s tag then
    let rest := String.mk (s.data.take (s.data.length - tag.data.length))
    let rest2 := rstrip rest
    if rest2.data.length < rest.data.length then some rest2 else none
  else none

/-- Models `re.sub(r'\s+(hq|headquarters)$', '', s)`: the regex requires at
least one whitespace character before the trailing tag, and removes the whole
whitespace run together with the tag. -/
def stripHqSuffix (s : String) : String :=
  match stripTag s "hq" with
  | some r => r
  | none =>
    match stripTag s "headquarters" with
    | some r => r
    | none => s

/-- A regex `\w` word character (ASCII model of Python's `\w`). -/
def isWordChar (c : Char) : Bool := c.isAlphanum || c == '_'

/-- Character class kept by the special-character scrub: word characters,
whitespace, comma, semicolon, slash and hyphen. -/
def keepLocChar (c : Char) : Bool :=
  isWordChar c || c.isWhitespace || c == ',' || c == ';' || c == '/' || c == '-'

/-- Models the `re.sub` that deletes every character outside the class above. -/
def filterLocChars (s : String) : String := String.mk (s.data.filter keepLocChar)

/-- Worker for `collapseWs`: the flag records whether the previous character
was whitespace (so that only the first character of a run is kept, as a
space). -/
def collapseWsAux : Bool → List Char → List Char
  | _, [] => []
  | prevWs, c :: cs =>
    if c.isWhitespace then
      if prevWs then collapseWsAux true cs else ' ' :: collapseWsAux true cs
    else c :: collapseWsAux false cs

/-- Replace each maximal whitespace run by a single space
(`re.sub(r'\s+', ' ', s)`). -/
def collapseWs (l : List Char) : List Char := collapseWsAux false l

/-- `re.sub(r'\s+', ' ', s).strip()`. -/
def collapseWsStr (s : String) : String := pyStrip (String.mk (collapseWs s.data))

/-- Separators tried, in order, by `normalize_location`. -/
def sepList : List String := [",", ";", " and ", " or ", "/"]

/-- The `for separator in [...]: if separator in cleaned: ... break / else:`
block: split on the first separator actually present, stripping each piece;
otherwise keep the whole string. -/
def splitFirstSep (cleaned : String) : List String :=
  match sepList.find? (fun sep => containsStr cleaned sep) with
  | some sep => (splitOnStr cleaned sep).map pyStrip
  | none => [cleaned]

/-- Noise words dropped by `normalize_location`. -/
def noiseWords : List String := ["and", "or", "the", "area", "metro", "region", "greater"]

/-- Models `LocationMatcher.normalize_location`.  The memoization cache in the
source is a transparent performance device and is not represented.  `String.trim`
models Python `str.strip()`. -/
def normalize_location (location : String) : List String :=
  if location == "" then []
  else
    let cleaned := strLower location
    let cleaned := stripCcPre cleaned
    let cleaned := stripHqSuffix cleaned
    let cleaned := filterLocChars cleaned
    let cleaned := collapseWsStr cleaned
    let parts := splitFirstSep cleaned
    (parts.map pyStrip).filter (fun p => !(p == "") && !(noiseWords.contains p))

/-- The per-token-pair direct comparison in `match_location`: equality, or
substring containment in either direction. -/
def directPartMatch (jp tp : String) : Bool :=
  jp == tp || containsStr tp jp || containsStr jp tp

/-- `any(alias in part or part in alias for alias in aliases)` lifted over the
token list of one side. -/
def sideMatchesAliases (aliases : List String) (parts : List String) : Bool :=
  parts.any (fun part => aliases.any (fun al => containsStr part al || containsStr al part))

/-- Models `LocationMatcher.match_location`. -/
def match_location (job_location target_location : String) : Bool :=
  if job_location == "" || target_location == "" then false
  else
    let job_parts := normalize_location job_location
    let target_parts := normalize_location target_location
    if job_parts.isEmpty || target_parts.isEmpty then false
    else
      (job_parts.any fun jp => target_parts.any fun tp => directPartMatch jp tp)
      || location_mappings.any
           (fun m => sideMatchesAliases m.2 job_parts && sideMatchesAliases m.2 target_parts)

/-- Remote-indicator phrases from `is_remote_location`. -/
def remote_indicators : List String :=
  ["remote", "work from home", "wfh", "telecommute", "distributed",
   "anywhere", "virtual", "home-based", "home based"]

/-- Models `LocationMatcher.is_remote_location`. -/
def is_remote_location (location : String) : Bool :=
  if location == "" then false
  else remote_indicators.any (fun ind => containsStr (strLower location) ind)

theorem directPartMatch_symm (a b : String) : directPartMatch a b = directPartMatch b a := by
  unfold directPartMatch
  rw [Bool.eq_iff_iff]
  simp only [Bool.or_eq_true, beq_iff_eq]
  constructor
  · rintro ((h | h) | h)
    · exact Or.inl (Or.inl h.symm)
    · exact Or.inr h
    · exact Or.inl (Or.inr h)
  · rintro ((h | h) | h)
    · exact Or.inl (Or.inl h.symm)
    · exact Or.inr h
    · exact Or.inl (Or.inr h)

theorem direct_swap (xs ys : List String) :
    (xs.any fun jp => ys.any fun tp => directPartMatch jp tp)
      = (ys.any fun jp => xs.any fun tp => directPartMatch jp tp) := by
  rw [Bool.eq_iff_iff]
  simp only [List.any_eq_true]
  constructor
  · rintro ⟨x, hx, y, hy, h⟩
    refine ⟨y, hy, x, hx, ?_⟩
    rw [directPartMatch_symm]
    exact h
  · rintro ⟨y, hy, x, hx, h⟩
    refine ⟨x, hx, y, hy, ?_⟩
    rw [directPartMatch_symm]
    exact h

theorem alias_swap (xs ys : List String) :
    (location_mappings.any fun m => sideMatchesAliases m.2 xs && sideMatchesAliases m.2 ys)
      = (location_mappings.any fun m => sideMatchesAliases m.2 ys && sideMatchesAliases m.2 xs) := by
  rw [Bool.eq_iff_iff]
  simp only [List.any_eq_true, Bool.and_eq_true]
  constructor <;> rintro ⟨m, hm, h1, h2⟩ <;> exact ⟨m, hm, h2, h1⟩

/-- C4: Location matching is symmetric: for every pair of strings `a` and `b`,
`match_location a b` equals `match_location b a`.  The empty-input guards, the
per-token-pair direct comparison and the per-alias-group comparison are each
invariant under swapping the two arguments. -/
theorem c4_match_location_symm (a b : String) : match_location a b = match_location b a := by
  unfold match_location
  cases ha : (a == "") <;> cases hb : (b == "") <;> simp only [ha, hb, Bool.or_true,
    Bool.true_or, Bool.or_false, Bool.false_or, if_true, if_false]
  cases hna : (normalize_location a).isEmpty <;> cases hnb : (normalize_location b).isEmpty <;>
    simp only [hna, hnb, Bool.or_true, Bool.true_or, Bool.or_false, Bool.false_or,
      if_true, if_false]
  rw [direct_swap, alias_swap]

/-! ## Data model (`app/models/__init__.py`)

SQLAlchemy rows become structures; nullable columns become `Option`;
timestamps become `Nat` instants; JSON list columns become `List String`.
Relationship attributes used by the services (`job.company.name`) are carried
as a `company_name` field on `Job`. -/

/-- A raw Greenhouse metadata entry (`{"name": ..., "value": ...}`); absent
keys are modelled as `""`, matching the `item.get(..., "")` reads. -/
structure RawMetaItem where
  name : String
  value : String
deriving DecidableEq, Repr

/-- The fields of one raw Greenhouse posting record that `GreenhouseJob`
reads.  `id` carries the already string-coerced identifier (`str(data.get("id",
""))`); `location_name` carries `data.get("location", {}).get("name", "")`,
with `""` for a missing or empty location object; `departments` carries the
department names (`d.get("name", "")` each). -/
structure RawJob where
  id : String
  title : String
  location_name : String
  departments : List String
  absolute_url : String
  metadata : List RawMetaItem
deriving DecidableEq, Repr

/-- `companies` row. -/
structure Company where
  id : Nat
  name : String
  slug : String
  ats_type : String
  is_active : Bool
  poll_interval_minutes : Nat
  last_polled_at : Option Nat
deriving DecidableEq, Repr

/-- `jobs` row. -/
structure Job where
  id : Nat
  company_id : Nat
  external_id : String
  title : String
  department : Option String
  location : Option String
  job_type : Option String
  external_url : String
  content_hash : String
  raw_data : RawJob
  first_seen_at : Nat
  last_seen_at : Nat
  is_active : Bool
  company_name : String
deriving DecidableEq, Repr

/-- `user_alerts` row. -/
structure UserAlert where
  id : Nat
  user_id : String
  name : String
  is_active : Bool
  company_slugs : List String
  title_keywords : List String
  title_exclude_keywords : List String
  departments : List String
  locations : List String
  job_types : List String
  include_remote : Bool
  discord_webhook_url : Option String
  last_notified_at : Option Nat
deriving DecidableEq, Repr

/-- `notifications` row (the dedup ledger). -/
structure Notification where
  alert_id : Nat
  job_id : Nat
  notification_type : String
  status : String
deriving DecidableEq, Repr

/-- Python truthiness of an `Optional[str]` column: `None` and `""` are falsy. -/
def optTruthy (o : Option String) : Bool :=
  match o with
  | none => false
  | some s => !(s == "")

/-! ## Matching Engine (`app/services/matcher.py`)

`JobMatcher._job_matches_alert` is a short-circuit conjunction of seven
guarded steps; each step is embedded as one `Bool`-valued definition that is
vacuously `true` when its guard (`if criteria and field:`) is off. -/

/-- Step 1, company filter: `if alert.company_slugs:` load the job's company
and require its slug to be in the alert's set (a missing company row also
rejects). -/
def companyFilter (companies : List Company) (job : Job) (alert : UserAlert) : Bool :=
  if alert.company_slugs.isEmpty then true
  else
    match companies.find? (fun c => c.id == job.company_id) with
    | none => false
    | some company => alert.company_slugs.contains company.slug

/-- Step 2, include-keywords: at least one keyword must occur
(case-insensitively) in the title. -/
def keywordFilter (job : Job) (alert : UserAlert) : Bool :=
  if alert.title_keywords.isEmpty then true
  else alert.title_keywords.any (fun kw => containsStr (strLower job.title) (strLower kw))

/-- Step 3, exclude-keywords: no exclude keyword may occur in the title. -/
def excludeFilter (job : Job) (alert : UserAlert) : Bool :=
  if alert.title_exclude_keywords.isEmpty then true
  else !(alert.title_exclude_keywords.any (fun kw => containsStr (strLower job.title) (strLower kw)))

/-- Step 4, department filter: guarded by `if alert.departments and
job.department:` — with an absent (or empty) posting department the step is
skipped entirely. -/
def departmentFilter (job : Job) (alert : UserAlert) : Bool :=
  if !alert.departments.isEmpty && optTruthy job.department then
    alert.departments.contains (job.department.getD "")
  else true

/-- Step 5, location filter: guarded by `if alert.locations and job.location:`
— with an absent posting location the step is skipped entirely.  Otherwise the
posting location must `match_location` some alert location, or (when the alert
includes remote) be a remote location. -/
def locationFilter (job : Job) (alert : UserAlert) : Bool :=
  if !alert.locations.isEmpty && optTruthy job.location then
    let jloc := job.location.getD ""
    (alert.locations.any (fun al => match_location jloc al))
      || (alert.include_remote && is_remote_location jloc)
  else true

/-- Step 6, job-type filter, symmetric to the department filter. -/
def jobTypeFilter (job : Job) (alert : UserAlert) : Bool :=
  if !alert.job_types.isEmpty && optTruthy job.job_type then
    alert.job_types.contains (job.job_type.getD "")
  else true

/-- Step 7, remote exclusion: `if not alert.include_remote and job.location:`
reject remote postings when the alert does not include remote. -/
def remoteExclusion (job : Job) (alert : UserAlert) : Bool :=
  if !alert.include_remote && optTruthy job.location then
    !(is_remote_location (job.location.getD ""))
  else true

/-- Models `JobMatcher._job_matches_alert`: the seven steps in source order;
`&&` short-circuits exactly as the early `return False`s do. -/
def job_matches_alert (companies : List Company) (job : Job) (alert : UserAlert) : Bool :=
  companyFilter companies job alert
    && keywordFilter job alert
    && excludeFilter job alert
    && departmentFilter job alert
    && locationFilter job alert
    && jobTypeFilter job alert
    && remoteExclusion job alert

/-- Models `JobMatcher.find_matching_alerts`: all active alerts whose criteria
the job passes, in alert order. -/
def find_matching_alerts (companies : List Company) (alerts : List UserAlert) (job : Job) :
    List UserAlert :=
  (alerts.filter (fun a => a.is_active)).filter (fun a => job_matches_alert companies job a)

/-- C3: for every posting with all optional fields absent and every
subscription with all criteria sets empty, `_job_matches_alert` evaluates
(totally — the embedding is a total function) to `true`, whatever the
remaining row fields are. -/
theorem c3_empty_criteria_match (companies : List Company)
    (jid cid fseen lseen : Nat) (eid jtitle url chash cname : String) (rd : RawJob)
    (jact : Bool) (aid : Nat) (uid aname : String) (aact incl : Bool)
    (wh : Option String) (ln : Option Nat) :
    job_matches_alert companies
      { id := jid, company_id := cid, external_id := eid, title := jtitle,
        department := none, location := none, job_type := none,
        external_url := url, content_hash := chash, raw_data := rd,
        first_seen_at := fseen, last_seen_at := lseen, is_active := jact,
        company_name := cname }
      { id := aid, user_id := uid, name := aname, is_active := aact,
        company_slugs := [], title_keywords := [], title_exclude_keywords := [],
        departments := [], locations := [], job_types := [],
        include_remote := incl, discord_webhook_url := wh, last_notified_at := ln }
      = true := by
  simp [job_matches_alert, companyFilter, keywordFilter, excludeFilter,
    departmentFilter, locationFilter, jobTypeFilter, remoteExclusion, optTruthy]

/-- C2 counterexample: a posting with an absent location against a
subscription whose location criteria set is non-empty (and all other criteria
empty) *matches*: the guard `if alert.locations and job.location:` skips the
location filter entirely when the posting location is absent, so the engine
returns `true`, not the `false` the claim states. -/
theorem c2_counterexample :
    job_matches_alert []
      { id := 1, company_id := 1, external_id := "j1", title := "Engineer",
        department := none, location := none, job_type := none,
        external_url := "https://example.com/j1", content_hash := "", raw_data :=
          { id := "j1", title := "Engineer", location_name := "",
            departments := [], absolute_url := "", metadata := [] },
        first_seen_at := 0, last_seen_at := 0, is_active := true,
        company_name := "Acme" }
      { id := 1, user_id := "u1", name := "a1", is_active := true,
        company_slugs := [], title_keywords := [], title_exclude_keywords := [],
        departments := [], locations := ["chicago"], job_types := [],
        include_remote := true, discord_webhook_url := none, last_notified_at := none }
      = true := by
  decide

/-- C2 amended: when the posting's location is absent (None or empty), the
location criteria of the subscription have no effect at all — the matcher
result is the same as with any other location criteria set (in particular the
empty one), because both the location filter and the remote-exclusion step are
guarded by the truthiness of the posting location. -/
theorem c2_absent_location_ignores_location_criteria
    (companies : List Company) (job : Job) (alert : UserAlert) (locs : List String)
    (h : optTruthy job.location = false) :
    job_matches_alert companies job { alert with locations := locs }
      = job_matches_alert companies job alert := by
  simp [job_matches_alert, companyFilter, keywordFilter, excludeFilter,
    departmentFilter, locationFilter, jobTypeFilter, remoteExclusion, h]

/-- Witness for the C2 amended theorem at a concrete input. -/
theorem c2_absent_location_witness :
    job_matches_alert []
      { id := 2, company_id := 1, external_id := "j2", title := "Designer",
        department := none, location := none, job_type := none,
        external_url := "", content_hash := "", raw_data :=
          { id := "j2", title := "Designer", location_name := "",
            departments := [], absolute_url := "", metadata := [] },
        first_seen_at := 0, last_seen_at := 0, is_active := true,
        company_name := "Acme" }
      { ({ id := 2, user_id := "u2", name := "a2", is_active := true,
           company_slugs := [], title_keywords := [], title_exclude_keywords := [],
           departments := [], locations := [], job_types := [],
           include_remote := false, discord_webhook_url := none,
           last_notified_at := none } : UserAlert) with locations := ["new york"] }
      = job_matches_alert []
      { id := 2, company_id := 1, external_id := "j2", title := "Designer",
        department := none, location := none, job_type := none,
        external_url := "", content_hash := "", raw_data :=
          { id := "j2", title := "Designer", location_name := "",
            departments := [], absolute_url := "", metadata := [] },
        first_seen_at := 0, last_seen_at := 0, is_active := true,
        company_name := "Acme" }
      { id := 2, user_id := "u2", name := "a2", is_active := true,
        company_slugs := [], title_keywords := [], title_exclude_keywords := [],
        departments := [], locations := [], job_types := [],
        include_remote := false, discord_webhook_url := none,
        last_notified_at := none } :=
  c2_absent_location_ignores_location_criteria _ _ _ ["new york"] (by decide)

/-- C10 counterexample: the claim's contrast "unlike the location filter" is
false — the location step behaves exactly like the department and job-type
steps on an absent posting field.  Here all three posting fields are absent
and all three criteria sets are non-empty, yet the engine returns `true`
(location absence does not cause a rejection). -/
theorem c10_counterexample :
    job_matches_alert []
      { id := 3, company_id := 7, external_id := "j3", title := "Analyst",
        department := none, location := none, job_type := none,
        external_url := "", content_hash := "", raw_data :=
          { id := "j3", title := "Analyst", location_name := "",
            departments := [], absolute_url := "", metadata := [] },
        first_seen_at := 0, last_seen_at := 0, is_active := true,
        company_name := "Globex" }
      { id := 3, user_id := "u3", name := "a3", is_active := true,
        company_slugs := [], title_keywords := [], title_exclude_keywords := [],
        departments := ["Sales"], locations := ["boston"], job_types := ["Intern"],
        include_remote := true, discord_webhook_url := none, last_notified_at := none }
      = true := by
  decide

/-- C10 amended: the two per-field statements, each on its own — for every
posting with an absent (None or empty) department, the department criteria
have no effect whatever the other fields hold (in particular with a present
job type), and independently, for every posting with an absent job type, the
job-type criteria have no effect — just as the location filter behaves on an
absent posting location, not "unlike" it. -/
theorem c10_absent_fields_ignore_criteria
    (companies : List Company) (job : Job) (alert : UserAlert) (deps jts : List String) :
    (optTruthy job.department = false →
      job_matches_alert companies job { alert with departments := deps }
        = job_matches_alert companies job alert)
    ∧ (optTruthy job.job_type = false →
      job_matches_alert companies job { alert with job_types := jts }
        = job_matches_alert companies job alert) := by
  constructor
  · intro h1
    simp [job_matches_alert, companyFilter, keywordFilter, excludeFilter,
      departmentFilter, locationFilter, jobTypeFilter, remoteExclusion, h1]
  · intro h2
    simp [job_matches_alert, companyFilter, keywordFilter, excludeFilter,
      departmentFilter, locationFilter, jobTypeFilter, remoteExclusion, h2]

/-- Witness for the C10 amended theorem, exercising each conjunct on a
posting where only the relevant field is absent: one with an absent
department but a present job type, and one with a present department but an
absent job type. -/
theorem c10_absent_fields_witness :
    (job_matches_alert []
      { id := 4, company_id := 7, external_id := "j4", title := "Writer",
        department := none, location := some "Chicago", job_type := some "Full-time",
        external_url := "", content_hash := "", raw_data :=
          { id := "j4", title := "Writer", location_name := "Chicago",
            departments := [], absolute_url := "", metadata := [] },
        first_seen_at := 0, last_seen_at := 0, is_active := true,
        company_name := "Globex" }
      { ({ id := 4, user_id := "u4", name := "a4", is_active := true,
           company_slugs := [], title_keywords := [], title_exclude_keywords := [],
           departments := [], locations := [], job_types := [],
           include_remote := true, discord_webhook_url := none,
           last_notified_at := none } : UserAlert) with departments := ["Marketing"] }
      = job_matches_alert []
      { id := 4, company_id := 7, external_id := "j4", title := "Writer",
        department := none, location := some "Chicago", job_type := some "Full-time",
        external_url := "", content_hash := "", raw_data :=
          { id := "j4", title := "Writer", location_name := "Chicago",
            departments := [], absolute_url := "", metadata := [] },
        first_seen_at := 0, last_seen_at := 0, is_active := true,
        company_name := "Globex" }
      { id := 4, user_id := "u4", name := "a4", is_active := true,
        company_slugs := [], title_keywords := [], title_exclude_keywords := [],
        departments := [], locations := [], job_types := [],
        include_remote := true, discord_webhook_url := none,
        last_notified_at := none })
    ∧ (job_matches_alert []
      { id := 5, company_id := 7, external_id := "j5", title := "Editor",
        department := some "Content", location := some "Chicago", job_type := none,
        external_url := "", content_hash := "", raw_data :=
          { id := "j5", title := "Editor", location_name := "Chicago",
            departments := ["Content"], absolute_url := "", metadata := [] },
        first_seen_at := 0, last_seen_at := 0, is_active := true,
        company_name := "Globex" }
      { ({ id := 5, user_id := "u5", name := "a5", is_active := true,
           company_slugs := [], title_keywords := [], title_exclude_keywords := [],
           departments := [], locations := [], job_types := [],
           include_remote := true, discord_webhook_url := none,
           last_notified_at := none } : UserAlert) with job_types := ["Contract"] }
      = job_matches_alert []
      { id := 5, company_id := 7, external_id := "j5", title := "Editor",
        department := some "Content", location := some "Chicago", job_type := none,
        external_url := "", content_hash := "", raw_data :=
          { id := "j5", title := "Editor", location_name := "Chicago",
            departments := ["Content"], absolute_url := "", metadata := [] },
        first_seen_at := 0, last_seen_at := 0, is_active := true,
        company_name := "Globex" }
      { id := 5, user_id := "u5", name := "a5", is_active := true,
        company_slugs := [], title_keywords := [], title_exclude_keywords := [],
        departments := [], locations := [], job_types := [],
        include_remote := true, discord_webhook_url := none,
        last_notified_at := none }) :=
  ⟨(c10_absent_fields_ignore_criteria _ _ _ ["Marketing"] []).1 (by decide),
   (c10_absent_fields_ignore_criteria _ _ _ [] ["Contract"]).2 (by decide)⟩

/-! ## SHA-256 (`hashlib.sha256(...).hexdigest()`)

A direct executable model of SHA-256 over `Nat`, with 32-bit wrap-around made
explicit by reduction modulo `2 ^ 32`.  The pipeline only ever compares
digests for equality. -/

/-- Reduce to a 32-bit word. -/
def w32 (n : Nat) : Nat := n % 4294967296

/-- 32-bit right rotation. -/
def rotr32 (n x : Nat) : Nat := w32 ((x >>> n) ||| (x <<< (32 - n)))

/-- The 64 SHA-256 round constants, in decimal. -/
def sha256K : List Nat :=
  [1116352408, 1899447441, 3049323471, 3921009573, 961987163,
   1508970993, 2453635748, 2870763221, 3624381080, 310598401,
   607225278, 1426881987, 1925078388, 2162078206, 2614888103,
   3248222580, 3835390401, 4022224774, 264347078, 604807628,
   770255983, 1249150122, 1555081692, 1996064986, 2554220882,
   2821834349, 2952996808, 3210313671, 3336571891, 3584528711,
   113926993, 338241895, 666307205, 773529912, 1294757372,
   1396182291, 1695183700, 1986661051, 2177026350, 2456956037,
   2730485921, 2820302411, 3259730800, 3345764771, 3516065817,
   3600352804, 4094571909, 275423344, 430227734, 506948616,
   659060556, 883997877, 958139571, 1322822218, 1537002063,
   1747873779, 1955562222, 2024104815, 2227730452, 2361852424,
   2428436474, 2756734187, 3204031479, 3329325298]

/-- The eight SHA-256 initial hash words, in decimal. -/
def sha256InitH : List Nat :=
  [1779033703, 3144134277, 1013904242, 2773480762,
   1359893119, 2600822924, 528734635, 1541459225]

def bigSigma0 (x : Nat) : Nat := (rotr32 2 x) ^^^ (rotr32 13 x) ^^^ (rotr32 22 x)
def bigSigma1 (x : Nat) : Nat := (rotr32 6 x) ^^^ (rotr32 11 x) ^^^ (rotr32 25 x)
def smallSigma0 (x : Nat) : Nat := (rotr32 7 x) ^^^ (rotr32 18 x) ^^^ (x >>> 3)
def smallSigma1 (x : Nat) : Nat := (rotr32 17 x) ^^^ (rotr32 19 x) ^^^ (x >>> 10)
def chFn (e f g : Nat) : Nat := (e &&& f) ^^^ ((e ^^^ 0xffffffff) &&& g)
def majFn (a b c : Nat) : Nat := (a &&& b) ^^^ (a &&& c) ^^^ (b &&& c)

/-- Append the `0x80` marker, the zero padding and the 64-bit big-endian bit
length. -/
def sha256Pad (msg : List Nat) : List Nat :=
  let len := msg.length
  let zeros := (64 - ((len + 9) % 64)) % 64
  let bitLen := len * 8
  msg ++ [0x80] ++ List.replicate zeros 0 ++
    ((List.range 8).map (fun i => (bitLen >>> (56 - 8 * i)) % 256))

/-- Big-endian 4-byte groups to 32-bit words. -/
def bytesToWords : List Nat → List Nat
  | b0 :: b1 :: b2 :: b3 :: rest =>
    ((b0 <<< 24) ||| (b1 <<< 16) ||| (b2 <<< 8) ||| b3) :: bytesToWords rest
  | _ => []

/-- Split into 64-byte blocks. -/
def chunk64 : List Nat → List (List Nat)
  | [] => []
  | x :: xs => (x :: xs.take 63) :: chunk64 (xs.drop 63)
termination_by l => l.length
decreasing_by
  simp [List.length_drop]
  omega

/-- Extend the 16 block words to the 64-entry message schedule. -/
def msgSchedule (w16 : List Nat) : List Nat :=
  (List.range 48).foldl
    (fun w _ =>
      let i := w.length
      w ++ [w32 (smallSigma1 (w.getD (i - 2) 0) + w.getD (i - 7) 0 +
                 smallSigma0 (w.getD (i - 15) 0) + w.getD (i - 16) 0)])
    w16

/-- The eight working variables of the compression loop. -/
structure Sha8 where
  a : Nat
  b : Nat
  c : Nat
  d : Nat
  e : Nat
  f : Nat
  g : Nat
  h : Nat

def compressRound (k wi : Nat) (s : Sha8) : Sha8 :=
  let t1 := w32 (s.h + bigSigma1 s.e + chFn s.e s.f s.g + k + wi)
  let t2 := w32 (bigSigma0 s.a + majFn s.a s.b s.c)
  { a := w32 (t1 + t2), b := s.a, c := s.b, d := s.c,
    e := w32 (s.d + t1), f := s.e, g := s.f, h := s.g }

def compressBlock (hs : List Nat) (block : List Nat) : List Nat :=
  let w := msgSchedule (bytesToWords block)
  let s0 : Sha8 :=
    { a := hs.getD 0 0, b := hs.getD 1 0, c := hs.getD 2 0, d := hs.getD 3 0,
      e := hs.getD 4 0, f := hs.getD 5 0, g := hs.getD 6 0, h := hs.getD 7 0 }
  let s := (List.range 64).foldl
    (fun s i => compressRound (sha256K.getD i 0) (w.getD i 0) s) s0
  [w32 (hs.getD 0 0 + s.a), w32 (hs.getD 1 0 + s.b), w32 (hs.getD 2 0 + s.c),
   w32 (hs.getD 3 0 + s.d), w32 (hs.getD 4 0 + s.e), w32 (hs.getD 5 0 + s.f),
   w32 (hs.getD 6 0 + s.g), w32 (hs.getD 7 0 + s.h)]

def sha256Words (msg : List Nat) : List Nat :=
  (chunk64 (sha256Pad msg)).foldl compressBlock sha256InitH

def hexDigit (n : Nat) : Char := "0123456789abcdef".data.getD n '0'

def toHex8 (n : Nat) : String :=
  String.mk ((List.range 8).map (fun i => hexDigit ((n >>> (28 - 4 * i)) % 16)))

/-- UTF-8 bytes of a string (Python `str.encode()`). -/
def utf8Bytes (s : String) : List Nat := s.toUTF8.toList.map (fun b => b.toNat)

/-- `hashlib.sha256(s.encode()).hexdigest()`. -/
def sha256hex (s : String) : String :=
  String.join ((sha256Words (utf8Bytes s)).map toHex8)

/-! ## Source Adapter (`app/services/greenhouse.py`) -/

/-- The normalized posting record produced by `GreenhouseJob.__init__`. -/
structure GreenhouseJob where
  raw_data : RawJob
  id : String
  title : String
  location : String
  department : String
  absolute_url : String
  job_type : String
deriving DecidableEq, Repr

/-- Country-code chunks recognized by `_parse_location`. -/
def country_codes : List String := ["US", "CA", "UK", "DE", "FR", "AU"]

/-- Models `GreenhouseJob._parse_location`.  The argument is the raw location
name (`""` when the location object or its name is missing or empty). -/
def parse_location (name : String) : String :=
  if name == "" then ""
  else if containsStr (strLower name) "remote" then "Remote"
  else
    let parts := splitOnStr name "-"
    if containsStr name "-" && parts.length == 2 then
      if country_codes.contains (strUpper (parts.getD 0 "")) then
        pyStrip (parts.getD 1 "")
      else pyStrip name
    else pyStrip name

/-- Models `GreenhouseJob._parse_department`: first department name, `""` when
the list is empty. -/
def parse_department (departments : List String) : String := departments.headD ""

/-- The keyword fallback shared by both branches of `_parse_job_type`. -/
def job_type_from_title (title : String) : String :=
  let tl := strLower title
  if containsStr tl "intern" then "Intern"
  else if containsStr tl "contract" then "Contract"
  else if containsStr tl "part-time" || containsStr tl "part time" then "Part-time"
  else "Full-time"

/-- Models `GreenhouseJob._parse_job_type`: the first metadata item named
`employment_type`/`job_type` wins (a falsy item, modelled as one with empty
name, never matches); otherwise the title keyword fallback.  The source's
separate `if not metadata:` early branch computes the same fallback. -/
def parse_job_type (metadata : List RawMetaItem) (title : String) : String :=
  match metadata.find? (fun item =>
      strLower item.name == "employment_type" || strLower item.name == "job_type") with
  | some item => item.value
  | none => job_type_from_title title

/-- Models `GreenhouseJob.__init__` on an already-extracted raw record. -/
def mkGreenhouseJob (data : RawJob) : GreenhouseJob :=
  { raw_data := data,
    id := data.id,
    title := data.title,
    location := parse_location data.location_name,
    department := parse_department data.departments,
    absolute_url := data.absolute_url,
    job_type := parse_job_type data.metadata data.title }

/-- The string hashed by `GreenhouseJob.content_hash`:
`f"{title}|{location}|{department}|{job_type}"`. -/
def hashContent (gh : GreenhouseJob) : String :=
  gh.title ++ "|" ++ gh.location ++ "|" ++ gh.department ++ "|" ++ gh.job_type

/-- Models `GreenhouseJob.content_hash`. -/
def content_hash (gh : GreenhouseJob) : String := sha256hex (hashContent gh)

/-- C8 counterexample: the stored location is *not* the raw upstream value
modulo surrounding whitespace.  For the raw location name `"US-NYC"` (no
surrounding whitespace at all) `_parse_location` strips the recognized
country-code chunk and stores `"NYC"`. -/
theorem c8_counterexample :
    (mkGreenhouseJob
      { id := "100", title := "Account Executive", location_name := "US-NYC",
        departments := [], absolute_url := "", metadata := [] }).location = "NYC"
    ∧ pyStrip "US-NYC" = "US-NYC"
    ∧ ("NYC" : String) ≠ "US-NYC" := by
  refine ⟨by decide, by decide, by decide⟩

/-- C8 amended: the stored location equals the raw upstream name trimmed of
surrounding whitespace *except* when `_parse_location` rewrites it: a name
containing `remote` (case-insensitively) is stored as `"Remote"`, and a name
consisting of exactly two chunks around a single hyphen whose first chunk
upper-cases to a recognized country code is stored as the trimmed second
chunk. -/
theorem c8_location_stored_raw_unless_rewritten (name : String)
    (h1 : containsStr (strLower name) "remote" = false)
    (h2 : (splitOnStr name "-").length = 2 →
      country_codes.contains (strUpper ((splitOnStr name "-").getD 0 "")) = false) :
    parse_location name = pyStrip name := by
  by_cases h0 : name = ""
  · subst h0
    rfl
  · have h0' : (name == "") = false := by simp [h0]
    unfold parse_location
    simp only [h0', h1, Bool.false_eq_true, if_false]
    split
    · rename_i hcond
      have hlen : (splitOnStr name "-").length = 2 := by
        have := (Bool.and_eq_true _ _ |>.mp hcond).2
        simpa using this
      rw [h2 hlen]
      simp
    · rfl

/-- Witness for the C8 amended theorem: a plain city name with surrounding
whitespace is stored trimmed but otherwise verbatim. -/
theorem c8_location_stored_raw_witness :
    parse_location "  Boston  " = pyStrip "  Boston  " :=
  c8_location_stored_raw_unless_rewritten "  Boston  " (by decide) (by decide)

/-- C9 counterexample: fingerprint equality does *not* imply field equality.
The hashed string joins the four fields with `"|"`, so fields containing the
separator collide: title `"a"` with location `"b|c"` and title `"a|b"` with
location `"c"` hash the same concatenation `"a|b|c||Full-time"` while the
titles differ. -/
theorem c9_counterexample :
    content_hash (mkGreenhouseJob
      { id := "1", title := "a", location_name := "b|c",
        departments := [], absolute_url := "", metadata := [] })
    = content_hash (mkGreenhouseJob
      { id := "2", title := "a|b", location_name := "c",
        departments := [], absolute_url := "", metadata := [] })
    ∧ (mkGreenhouseJob
      { id := "1", title := "a", location_name := "b|c",
        departments := [], absolute_url := "", metadata := [] }).title
      ≠ (mkGreenhouseJob
      { id := "2", title := "a|b", location_name := "c",
        departments := [], absolute_url := "", metadata := [] }).title := by
  constructor
  · exact congrArg sha256hex (by decide)
  · decide

/-- C9 amended: one direction of the claim holds — equality of the four
user-visible fields (title, location, department, job type) implies
fingerprint equality; the converse fails because the `"|"`-joined
concatenation does not determine the field boundaries. -/
theorem c9_fields_determine_fingerprint (g1 g2 : GreenhouseJob)
    (ht : g1.title = g2.title) (hl : g1.location = g2.location)
    (hd : g1.department = g2.department) (hj : g1.job_type = g2.job_type) :
    content_hash g1 = content_hash g2 := by
  unfold content_hash hashContent
  rw [ht, hl, hd, hj]

/-- Witness for the C9 amended theorem: two postings differing only in their
apply URL (a field outside the fingerprint) share a fingerprint. -/
theorem c9_fields_witness :
    content_hash (mkGreenhouseJob
      { id := "5", title := "Backend Engineer", location_name := "Chicago",
        departments := ["Eng"], absolute_url := "https://x/1", metadata := [] })
    = content_hash (mkGreenhouseJob
      { id := "6", title := "Backend Engineer", location_name := "Chicago",
        departments := ["Eng"], absolute_url := "https://x/2", metadata := [] }) :=
  c9_fields_determine_fingerprint _ _ rfl rfl rfl rfl

/-! ## Notification Dispatcher rendering (`app/services/discord.py`)

`DiscordNotifier._create_embed` builds a Discord embed dictionary; its
`fields` list is what carries the posting entries.  The embed is modelled
structurally (name/value/inline per field); the emoji glyphs are written via
their code points. -/

/-- One-character string from a code point. -/
def emojiStr (n : Nat) : String := String.mk [Char.ofNat n]

/-- `sep.join(parts)`. -/
def joinSep (sep : String) : List String → String
  | [] => ""
  | [x] => x
  | x :: xs => x ++ sep ++ joinSep sep xs

/-- One embed field (`{"name": ..., "value": ..., "inline": ...}`). -/
structure DiscordField where
  name : String
  value : String
  inline : Bool
deriving DecidableEq, Repr

/-- The whole embed as far as the pipeline populates it. -/
structure DiscordEmbed where
  title : String
  description : String
  color : Nat
  fields : List DiscordField
deriving DecidableEq, Repr

/-- Models `DiscordNotifier._create_job_field`: job fields are `inline`. -/
def create_job_field (job : Job) : DiscordField :=
  let details : List String := [emojiStr 0x1F3E2 ++ " " ++ job.company_name]
  let details := details ++
    (if optTruthy job.department then
      [emojiStr 0x1F4C1 ++ " " ++ job.department.getD ""] else [])
  let details := details ++
    (if optTruthy job.location then
      [(if containsStr (strLower (job.location.getD "")) "remote" then emojiStr 0x1F30D
        else emojiStr 0x1F4CD) ++ " " ++ job.location.getD ""] else [])
  let details := details ++
    (if optTruthy job.job_type then
      [emojiStr 0x1F4BC ++ " " ++ job.job_type.getD ""] else [])
  let details := details ++ ["[**Apply Here**](" ++ job.external_url ++ ")"]
  { name := "**" ++ job.title ++ "**", value := joinSep "\n" details, inline := true }

/-- Models `DiscordNotifier._create_alert_summary`. -/
def create_alert_summary (alert : UserAlert) : String :=
  let criteria : List String :=
    (if !alert.company_slugs.isEmpty then
      [if alert.company_slugs.length ≤ 3 then
        "**Companies:** " ++ joinSep ", " alert.company_slugs
       else
        "**Companies:** " ++ toString alert.company_slugs.length ++ " selected"]
     else [])
    ++ (if !alert.title_keywords.isEmpty then
      [let kws := joinSep ", " (alert.title_keywords.take 5)
       let kws := if alert.title_keywords.length > 5 then
          kws ++ " (+" ++ toString (alert.title_keywords.length - 5) ++ " more)" else kws
       "**Keywords:** " ++ kws]
     else [])
    ++ (if !alert.title_exclude_keywords.isEmpty then
      [let ex := joinSep ", " (alert.title_exclude_keywords.take 3)
       let ex := if alert.title_exclude_keywords.length > 3 then
          ex ++ " (+" ++ toString (alert.title_exclude_keywords.length - 3) ++ " more)" else ex
       "**Excluding:** " ++ ex]
     else [])
    ++ (if !alert.departments.isEmpty then
      [let ds := joinSep ", " (alert.departments.take 3)
       let ds := if alert.departments.length > 3 then
          ds ++ " (+" ++ toString (alert.departments.length - 3) ++ " more)" else ds
       "**Departments:** " ++ ds]
     else [])
    ++ (if !alert.locations.isEmpty then
      [let ls := joinSep ", " (alert.locations.take 3)
       let ls := if alert.locations.length > 3 then
          ls ++ " (+" ++ toString (alert.locations.length - 3) ++ " more)" else ls
       "**Locations:** " ++ ls]
     else [])
    ++ (if !alert.job_types.isEmpty then
      ["**Types:** " ++ joinSep ", " alert.job_types]
     else [])
    ++ ["**Remote Jobs:** " ++ (if alert.include_remote then "Yes" else "No")]
  if criteria.isEmpty then "No specific criteria" else joinSep "\n" criteria

/-- The "and X more" summary field appended when more than ten postings are
batched (`n` is the full batch size). -/
def additional_jobs_field (n : Nat) : DiscordField :=
  { name := emojiStr 0x2795 ++ " Additional Jobs",
    value := "... and " ++ toString (n - 10) ++
      " more jobs! Check your alert dashboard for the complete list.",
    inline := false }

/-- The trailing alert-criteria field. -/
def alert_criteria_field (alert : UserAlert) : DiscordField :=
  { name := emojiStr 0x1F50D ++ " Alert Criteria",
    value := create_alert_summary alert,
    inline := false }

/-- Models `DiscordNotifier._create_embed`: at most ten job fields
(`jobs[:10]`), one additional-jobs summary field when the batch exceeds ten,
then the alert-criteria field.  `is_initial` affects only title, colour and
description. -/
def create_embed (jobs : List Job) (alert : UserAlert) (is_initial : Bool) : DiscordEmbed :=
  let title :=
    if is_initial then emojiStr 0x1F3AF ++ " Initial Job Alert: " ++ alert.name
    else emojiStr 0x1F6A8 ++ " New Job Alert: " ++ alert.name
  let color := if is_initial then 0x5865F2 else 0x57F287
  let description :=
    if is_initial then
      "Found **" ++ toString jobs.length ++ "** existing jobs matching your criteria!"
    else if jobs.length == 1 then
      "A new job was posted that matches your criteria!"
    else
      "**" ++ toString jobs.length ++ "** new jobs were posted that match your criteria!"
  { title := title, description := description, color := color,
    fields :=
      ((jobs.take 10).map create_job_field)
        ++ (if jobs.length > 10 then [additional_jobs_field jobs.length] else [])
        ++ [alert_criteria_field alert] }

/-- Recognizes the additional-jobs summary field (job fields are inline, the
criteria field carries a different name). -/
def isSummaryField (f : DiscordField) : Bool :=
  !f.inline && f.name == emojiStr 0x2795 ++ " Additional Jobs"

/-- C6: for a batch of `n` matching postings the rendered embed carries
`min n 10` posting entries (the inline fields), exactly one additional-jobs
summary field when `n > 10` and none otherwise, and that summary field
reports the `n − 10` remaining postings.  Instantiating `n = 12` gives ten
posting entries plus one "... and 2 more jobs!" summary entry. -/
theorem c6_embed_batching (jobs : List Job) (alert : UserAlert) (is_initial : Bool) :
    ((create_embed jobs alert is_initial).fields.countP (fun f => f.inline)) = min jobs.length 10
    ∧ (create_embed jobs alert is_initial).fields.filter isSummaryField
        = (if jobs.length > 10 then [additional_jobs_field jobs.length] else [])
    ∧ (additional_jobs_field jobs.length).value
        = "... and " ++ toString (jobs.length - 10) ++
          " more jobs! Check your alert dashboard for the complete list." := by
  refine ⟨?_, ?_, rfl⟩
  · simp only [create_embed, List.countP_append, List.countP_map]
    have h1 : (jobs.take 10).countP ((fun f => f.inline) ∘ create_job_field)
        = (jobs.take 10).length := by
      rw [List.countP_eq_length]
      intro a _
      rfl
    have h2 : List.countP (fun f => f.inline)
        (if jobs.length > 10 then [additional_jobs_field jobs.length] else []) = 0 := by
      split <;> rfl
    rw [h1, h2, List.length_take]
    simp [Nat.min_comm, alert_criteria_field]
  · simp only [create_embed, List.filter_append]
    have h1 : List.filter isSummaryField ((jobs.take 10).map create_job_field) = [] := by
      rw [List.filter_map]
      have : (jobs.take 10).filter (isSummaryField ∘ create_job_field) = [] := by
        rw [List.filter_eq_nil_iff]
        intro a _
        simp [isSummaryField, create_job_field]
      rw [this]
      rfl
    have h2 : List.filter isSummaryField
        (if jobs.length > 10 then [additional_jobs_field jobs.length] else [])
        = (if jobs.length > 10 then [additional_jobs_field jobs.length] else []) := by
      split <;> rfl
    have h3 : List.filter isSummaryField [alert_criteria_field alert] = [] := by
      rfl
    rw [h1, h2, h3]
    simp

/-! ## Polling Orchestrator (`app/services/poller.py`)

The database session becomes explicit state: the `jobs` table is a list of
`Job` rows, the `notifications` table (dedup ledger) a list of
`Notification` rows, the `poll_logs` table a list of `PollLog` rows.  The
outcome of a Discord webhook delivery is an oracle `sendOk` (the HTTP POST
result), and exceptions raised during fetch / per-posting processing are
represented by an explicit outcome value, as `_poll_company` catches them in
one `try` block. -/

/-- `poll_logs` row (timing columns are not modelled; no claim concerns
them). -/
structure PollLog where
  company_id : Nat
  status : String
  jobs_found : Nat
  new_jobs : Nat
  updated_jobs : Nat
  error_message : Option String
deriving DecidableEq, Repr

/-- The sent/failed counters returned by `_send_job_notifications`. -/
structure NotifStats where
  sent : Nat
  failed : Nat
deriving DecidableEq, Repr

/-- Models `JobPollingService._send_job_notifications`: for each matching
alert, skip when the ledger already holds an `(alert_id, job_id)` row;
otherwise, when the alert has a (truthy) webhook, deliver (outcome from the
`sendOk` oracle) and append a ledger row with status `sent`/`failed`.  The
`alert.last_notified_at` touch on success is not represented (no claim
concerns it). -/
def send_job_notifications (ledger : List Notification) (job : Job)
    (matching : List UserAlert) (sendOk : UserAlert → Bool) :
    List Notification × NotifStats :=
  matching.foldl
    (fun (acc : List Notification × NotifStats) alert =>
      let (led, stats) := acc
      if led.any (fun n => n.alert_id == alert.id && n.job_id == job.id) then
        acc
      else if optTruthy alert.discord_webhook_url then
        let ok := sendOk alert
        let n : Notification :=
          { alert_id := alert.id, job_id := job.id,
            notification_type := "discord",
            status := if ok then "sent" else "failed" }
        (led ++ [n],
         if ok then { stats with sent := stats.sent + 1 }
         else { stats with failed := stats.failed + 1 })
      else acc)
    (ledger, { sent := 0, failed := 0 })

/-- Models `JobPollingService.send_initial_alert_notification` (the happy
path inside the `try`): when the alert names companies, collect their active
jobs, filter by the matching engine, and — when there are matches and a
webhook — deliver once; on success record one `sent` ledger row *per matching
job without consulting the ledger first*.  Returns the new ledger and the
reported success flag. -/
def send_initial_alert_notification (companies : List Company) (jobs : List Job)
    (ledger : List Notification) (alert : UserAlert) (sendOk : Bool) :
    List Notification × Bool :=
  if alert.company_slugs.isEmpty then (ledger, true)
  else
    let company_ids := (companies.filter (fun c => alert.company_slugs.contains c.slug)).map (fun c => c.id)
    let candidates := jobs.filter (fun j => company_ids.contains j.company_id && j.is_active)
    let matching_jobs := candidates.filter (fun j => job_matches_alert companies j alert)
    if !matching_jobs.isEmpty && optTruthy alert.discord_webhook_url then
      if sendOk then
        (ledger ++ matching_jobs.map (fun j =>
          { alert_id := alert.id, job_id := j.id,
            notification_type := "discord", status := "sent" }), true)
      else (ledger, false)
    else (ledger, true)

/-- The per-job counters returned by `_process_job`. -/
structure ProcessResult where
  is_new : Bool
  is_updated : Bool
  notifications_sent : Nat
  notifications_failed : Nat
deriving DecidableEq, Repr

/-- Models `JobPollingService._process_job`: look up the stored row by
`(company_id, external_id)`; insert (with a fresh row id `newJobId` — the
autoincrement obtained by `db.flush()`) and notify when absent; overwrite the
mutable fields, refresh `last_seen_at` and notify when the fingerprint
differs; otherwise refresh `last_seen_at` only.  Returns the updated jobs
table, the updated ledger and the counters. -/
def process_job (companies : List Company) (alerts : List UserAlert)
    (jobs : List Job) (ledger : List Notification) (company : Company)
    (gh : GreenhouseJob) (sendOk : UserAlert → Bool) (newJobId now : Nat) :
    List Job × List Notification × ProcessResult :=
  match jobs.find? (fun j => j.company_id == company.id && j.external_id == gh.id) with
  | none =>
    let job : Job :=
      { id := newJobId, company_id := company.id, external_id := gh.id,
        title := gh.title, department := some gh.department,
        location := some gh.location, job_type := some gh.job_type,
        external_url := gh.absolute_url, content_hash := content_hash gh,
        raw_data := gh.raw_data, first_seen_at := now, last_seen_at := now,
        is_active := true, company_name := company.name }
    let matching := find_matching_alerts companies alerts job
    let (ledger2, stats) := send_job_notifications ledger job matching sendOk
    (jobs ++ [job], ledger2,
     { is_new := true, is_updated := false,
       notifications_sent := stats.sent, notifications_failed := stats.failed })
  | some existing =>
    if existing.content_hash != content_hash gh then
      let updated : Job :=
        { existing with
          title := gh.title, department := some gh.department,
          location := some gh.location, job_type := some gh.job_type,
          external_url := gh.absolute_url, content_hash := content_hash gh,
          raw_data := gh.raw_data, last_seen_at := now }
      let jobs2 := jobs.map (fun j => if j.id == existing.id then updated else j)
      let matching := find_matching_alerts companies alerts updated
      let (ledger2, stats) := send_job_notifications ledger updated matching sendOk
      (jobs2, ledger2,
       { is_new := false, is_updated := true,
         notifications_sent := stats.sent, notifications_failed := stats.failed })
    else
      let updated : Job := { existing with last_seen_at := now }
      (jobs.map (fun j => if j.id == existing.id then updated else j), ledger,
       { is_new := false, is_updated := false,
         notifications_sent := 0, notifications_failed := 0 })

/-- The returned statistics dictionary of `_poll_company`. -/
structure PollCompanyStats where
  success : Bool
  jobs_found : Nat
  new_jobs : Nat
  updated_jobs : Nat
  notifications_sent : Nat
  notifications_failed : Nat
deriving DecidableEq, Repr

/-- Accumulated session state while the per-posting loop of `_poll_company`
runs. -/
structure OrchState where
  jobs : List Job
  ledger : List Notification
  nextJobId : Nat
  new_jobs : Nat
  updated_jobs : Nat
  notifications_sent : Nat
  notifications_failed : Nat
deriving DecidableEq, Repr

/-- The `for gh_job in greenhouse_jobs:` loop body of `_poll_company`,
folded over a batch of fetched postings. -/
def process_batch (companies : List Company) (alerts : List UserAlert)
    (company : Company) (sendOk : UserAlert → Bool) (now : Nat)
    (st : OrchState) (ghs : List GreenhouseJob) : OrchState :=
  ghs.foldl
    (fun st gh =>
      let (jobs2, ledger2, r) :=
        process_job companies alerts st.jobs st.ledger company gh sendOk st.nextJobId now
      { jobs := jobs2, ledger := ledger2,
        nextJobId := if r.is_new then st.nextJobId + 1 else st.nextJobId,
        new_jobs := st.new_jobs + (if r.is_new then 1 else 0),
        updated_jobs := st.updated_jobs + (if r.is_updated then 1 else 0),
        notifications_sent := st.notifications_sent + r.notifications_sent,
        notifications_failed := st.notifications_failed + r.notifications_failed })
    st

/-- The full result of one `_poll_company` attempt: the company row (with
`last_polled_at` updated or not), the session tables, the finished poll log
row and the returned statistics. -/
structure PollCompanyResult where
  company : Company
  jobs : List Job
  ledger : List Notification
  log : PollLog
  stats : PollCompanyStats
deriving DecidableEq, Repr

/-- Models `JobPollingService._poll_company`.  The adapter fetch result is
passed in as `fetched` (`.error` when `fetch_jobs` raises), and an exception
raised while processing the posting at index `k` is represented by
`procFail = some (k, msg)` (no exception occurs when `k` is past the end of
the batch).  On a clean attempt the company's `last_polled_at` is set to
`now` and the poll log completes with status `success` and the counters; when
the `try` block raises, the `update(Company)` statement is never reached, the
poll log completes with status `error` and the exception text, and the rows
already added to the session by the partial loop are committed by the
`except` branch's `db.commit()`. -/
def poll_company (companies : List Company) (alerts : List UserAlert)
    (jobs : List Job) (ledger : List Notification) (company : Company)
    (fetched : Except String (List GreenhouseJob)) (procFail : Option (Nat × String))
    (sendOk : UserAlert → Bool) (nextJobId now : Nat) : PollCompanyResult :=
  match fetched with
  | .error msg =>
    { company := company, jobs := jobs, ledger := ledger,
      log := { company_id := company.id, status := "error",
               jobs_found := 0, new_jobs := 0, updated_jobs := 0,
               error_message := some msg },
      stats := { success := false, jobs_found := 0, new_jobs := 0, updated_jobs := 0,
                 notifications_sent := 0, notifications_failed := 0 } }
  | .ok ghs =>
    let base : OrchState :=
      { jobs := jobs, ledger := ledger, nextJobId := nextJobId,
        new_jobs := 0, updated_jobs := 0,
        notifications_sent := 0, notifications_failed := 0 }
    match procFail with
    | some (k, msg) =>
      if k < ghs.length then
        let st := process_batch companies alerts company sendOk now base (ghs.take k)
        { company := company, jobs := st.jobs, ledger := st.ledger,
          log := { company_id := company.id, status := "error",
                   jobs_found := 0, new_jobs := 0, updated_jobs := 0,
                   error_message := some msg },
          stats := { success := false, jobs_found := ghs.length,
                     new_jobs := st.new_jobs, updated_jobs := st.updated_jobs,
                     notifications_sent := st.notifications_sent,
                     notifications_failed := st.notifications_failed } }
      else
        let st := process_batch companies alerts company sendOk now base ghs
        { company := { company with last_polled_at := some now },
          jobs := st.jobs, ledger := st.ledger,
          log := { company_id := company.id, status := "success",
                   jobs_found := ghs.length, new_jobs := st.new_jobs,
                   updated_jobs := st.updated_jobs, error_message := none },
          stats := { success := true, jobs_found := ghs.length,
                     new_jobs := st.new_jobs, updated_jobs := st.updated_jobs,
                     notifications_sent := st.notifications_sent,
                     notifications_failed := st.notifications_failed } }
    | none =>
      let st := process_batch companies alerts company sendOk now base ghs
      { company := { company with last_polled_at := some now },
        jobs := st.jobs, ledger := st.ledger,
        log := { company_id := company.id, status := "success",
                 jobs_found := ghs.length, new_jobs := st.new_jobs,
                 updated_jobs := st.updated_jobs, error_message := none },
        stats := { success := true, jobs_found := ghs.length,
                   new_jobs := st.new_jobs, updated_jobs := st.updated_jobs,
                   notifications_sent := st.notifications_sent,
                   notifications_failed := st.notifications_failed } }

/-- Whether the attempt completes fetch and the per-posting loop without an
exception. -/
def attempt_completes (fetched : Except String (List GreenhouseJob))
    (procFail : Option (Nat × String)) : Bool :=
  match fetched with
  | .error _ => false
  | .ok ghs =>
    match procFail with
    | some (k, _) => decide (ghs.length ≤ k)
    | none => true

/-- C5: processing a fetched posting whose fingerprint equals the stored
row's fingerprint leaves every stored mutable field unchanged and refreshes
only `last_seen_at`, leaves the notification ledger untouched (so no matching
or dispatch runs) and reports zero sent/failed counts and no new/updated
classification. -/
theorem c5_unchanged_fingerprint_frame (companies : List Company)
    (alerts : List UserAlert) (jobs : List Job) (ledger : List Notification)
    (company : Company) (gh : GreenhouseJob) (sendOk : UserAlert → Bool)
    (newJobId now : Nat) (existing : Job)
    (hfind : jobs.find? (fun j => j.company_id == company.id && j.external_id == gh.id)
      = some existing)
    (hhash : existing.content_hash = content_hash gh) :
    process_job companies alerts jobs ledger company gh sendOk newJobId now
      = (jobs.map (fun j => if j.id == existing.id then { existing with last_seen_at := now } else j),
         ledger,
         { is_new := false, is_updated := false,
           notifications_sent := 0, notifications_failed := 0 }) := by
  unfold process_job
  rw [hfind]
  simp [bne, hhash]

/-- Witness for C5 at a concrete state: one stored row whose fingerprint
field equals the fetched posting's fingerprint. -/
theorem c5_unchanged_fingerprint_witness :
    process_job
      [{ id := 1, name := "Acme", slug := "acme", ats_type := "greenhouse",
         is_active := true, poll_interval_minutes := 15, last_polled_at := none }]
      []
      [{ id := 7, company_id := 1, external_id := "j7", title := "Backend Engineer",
         department := some "Eng", location := some "Chicago", job_type := some "Full-time",
         external_url := "https://x/7",
         content_hash := content_hash (mkGreenhouseJob
           { id := "j7", title := "Backend Engineer", location_name := "Chicago",
             departments := ["Eng"], absolute_url := "https://x/7",
             metadata := [{ name := "employment_type", value := "Full-time" }] }),
         raw_data := { id := "j7", title := "Backend Engineer", location_name := "Chicago",
                       departments := ["Eng"], absolute_url := "https://x/7",
                       metadata := [{ name := "employment_type", value := "Full-time" }] },
         first_seen_at := 3, last_seen_at := 3, is_active := true, company_name := "Acme" }]
      []
      { id := 1, name := "Acme", slug := "acme", ats_type := "greenhouse",
        is_active := true, poll_interval_minutes := 15, last_polled_at := none }
      (mkGreenhouseJob
        { id := "j7", title := "Backend Engineer", location_name := "Chicago",
          departments := ["Eng"], absolute_url := "https://x/7",
          metadata := [{ name := "employment_type", value := "Full-time" }] })
      (fun _ => true) 99 5
      = ([{ id := 7, company_id := 1, external_id := "j7", title := "Backend Engineer",
            department := some "Eng", location := some "Chicago", job_type := some "Full-time",
            external_url := "https://x/7",
            content_hash := content_hash (mkGreenhouseJob
              { id := "j7", title := "Backend Engineer", location_name := "Chicago",
                departments := ["Eng"], absolute_url := "https://x/7",
                metadata := [{ name := "employment_type", value := "Full-time" }] }),
            raw_data := { id := "j7", title := "Backend Engineer", location_name := "Chicago",
                          departments := ["Eng"], absolute_url := "https://x/7",
                          metadata := [{ name := "employment_type", value := "Full-time" }] },
            first_seen_at := 3, last_seen_at := 5, is_active := true, company_name := "Acme" }],
         [],
         { is_new := false, is_updated := false,
           notifications_sent := 0, notifications_failed := 0 }) := by
  have h := c5_unchanged_fingerprint_frame
    [{ id := 1, name := "Acme", slug := "acme", ats_type := "greenhouse",
       is_active := true, poll_interval_minutes := 15, last_polled_at := none }]
    []
    [{ id := 7, company_id := 1, external_id := "j7", title := "Backend Engineer",
       department := some "Eng", location := some "Chicago", job_type := some "Full-time",
       external_url := "https://x/7",
       content_hash := content_hash (mkGreenhouseJob
         { id := "j7", title := "Backend Engineer", location_name := "Chicago",
           departments := ["Eng"], absolute_url := "https://x/7",
           metadata := [{ name := "employment_type", value := "Full-time" }] }),
       raw_data := { id := "j7", title := "Backend Engineer", location_name := "Chicago",
                     departments := ["Eng"], absolute_url := "https://x/7",
                     metadata := [{ name := "employment_type", value := "Full-time" }] },
       first_seen_at := 3, last_seen_at := 3, is_active := true, company_name := "Acme" }]
    []
    { id := 1, name := "Acme", slug := "acme", ats_type := "greenhouse",
      is_active := true, poll_interval_minutes := 15, last_polled_at := none }
    (mkGreenhouseJob
      { id := "j7", title := "Backend Engineer", location_name := "Chicago",
        departments := ["Eng"], absolute_url := "https://x/7",
        metadata := [{ name := "employment_type", value := "Full-time" }] })
    (fun _ => true) 99 5 _ rfl rfl
  exact h

/-- C7: for every polling attempt, the source's `last_polled_at` is set to
the poll instant exactly when the attempt completes fetch and the per-posting
loop without an exception; on a fetch or per-posting exception the company
row is returned unchanged and the audit entry completes with status `error`
and the exception text. -/
theorem c7_last_polled_iff_clean_attempt (companies : List Company)
    (alerts : List UserAlert) (jobs : List Job) (ledger : List Notification)
    (company : Company) (fetched : Except String (List GreenhouseJob))
    (procFail : Option (Nat × String)) (sendOk : UserAlert → Bool)
    (nextJobId now : Nat) :
    (attempt_completes fetched procFail = true →
      (poll_company companies alerts jobs ledger company fetched procFail sendOk nextJobId now).company
          = { company with last_polled_at := some now }
        ∧ (poll_company companies alerts jobs ledger company fetched procFail sendOk nextJobId now).log.status
          = "success")
    ∧ (attempt_completes fetched procFail = false →
      (poll_company companies alerts jobs ledger company fetched procFail sendOk nextJobId now).company
          = company
        ∧ (poll_company companies alerts jobs ledger company fetched procFail sendOk nextJobId now).log.status
          = "error"
        ∧ (poll_company companies alerts jobs ledger company fetched procFail sendOk nextJobId now).log.error_message
          ≠ none) := by
  match fetched with
  | .error msg => simp [attempt_completes, poll_company]
  | .ok ghs =>
    match procFail with
    | none => simp [attempt_completes, poll_company]
    | some (k, msg) =>
      by_cases hk : k < ghs.length
      · have : decide (ghs.length ≤ k) = false := by simp; omega
        simp [attempt_completes, poll_company, hk, this]
      · have : decide (ghs.length ≤ k) = true := by simp; omega
        simp [attempt_completes, poll_company, hk, this]

/-- Witness for C7 at a concrete error attempt: the fetch raises, the company
row is unchanged and the audit row reports the error. -/
theorem c7_error_attempt_witness :
    (poll_company [] [] [] []
      { id := 3, name := "Initech", slug := "initech", ats_type := "greenhouse",
        is_active := true, poll_interval_minutes := 15, last_polled_at := some 2 }
      (Except.error "HTTP 500") none (fun _ => true) 1 10).company
      = { id := 3, name := "Initech", slug := "initech", ats_type := "greenhouse",
          is_active := true, poll_interval_minutes := 15, last_polled_at := some 2 }
    ∧ (poll_company [] [] [] []
      { id := 3, name := "Initech", slug := "initech", ats_type := "greenhouse",
        is_active := true, poll_interval_minutes := 15, last_polled_at := some 2 }
      (Except.error "HTTP 500") none (fun _ => true) 1 10).log.status = "error"
    ∧ (poll_company [] [] [] []
      { id := 3, name := "Initech", slug := "initech", ats_type := "greenhouse",
        is_active := true, poll_interval_minutes := 15, last_polled_at := some 2 }
      (Except.error "HTTP 500") none (fun _ => true) 1 10).log.error_message ≠ none :=
  (c7_last_polled_iff_clean_attempt [] [] [] []
    { id := 3, name := "Initech", slug := "initech", ats_type := "greenhouse",
      is_active := true, poll_interval_minutes := 15, last_polled_at := some 2 }
    (Except.error "HTTP 500") none (fun _ => true) 1 10).2 (by rfl)

/-- C1 evidence: the initial-alert path writes ledger rows *without* the
existence check that the per-poll dispatch path performs.  Starting from an
empty ledger, the poll dispatch path records the `(alert 1, job 1)` row; the
initial-alert path, run afterwards over the same state (reachable because the
initial notification is a background task that can run after a poll cycle has
already notified the new alert), records a second row for the same pair, so
the final ledger holds two rows for one (subscription, posting) pair. -/
theorem c1_initial_path_skips_dedup :
    (send_job_notifications []
      { id := 1, company_id := 1, external_id := "j1", title := "Engineer",
        department := none, location := none, job_type := none,
        external_url := "https://x/1", content_hash := "h1",
        raw_data := { id := "j1", title := "Engineer", location_name := "",
                      departments := [], absolute_url := "https://x/1", metadata := [] },
        first_seen_at := 0, last_seen_at := 0, is_active := true, company_name := "Acme" }
      (find_matching_alerts
        [{ id := 1, name := "Acme", slug := "acme", ats_type := "greenhouse",
           is_active := true, poll_interval_minutes := 15, last_polled_at := none }]
        [{ id := 1, user_id := "u1", name := "a1", is_active := true,
           company_slugs := ["acme"], title_keywords := [], title_exclude_keywords := [],
           departments := [], locations := [], job_types := [],
           include_remote := true, discord_webhook_url := some "https://discord/wh",
           last_notified_at := none }]
        { id := 1, company_id := 1, external_id := "j1", title := "Engineer",
          department := none, location := none, job_type := none,
          external_url := "https://x/1", content_hash := "h1",
          raw_data := { id := "j1", title := "Engineer", location_name := "",
                        departments := [], absolute_url := "https://x/1", metadata := [] },
          first_seen_at := 0, last_seen_at := 0, is_active := true, company_name := "Acme" })
      (fun _ => true)).1
      = [{ alert_id := 1, job_id := 1, notification_type := "discord", status := "sent" }]
    ∧ ((send_initial_alert_notification
        [{ id := 1, name := "Acme", slug := "acme", ats_type := "greenhouse",
           is_active := true, poll_interval_minutes := 15, last_polled_at := none }]
        [{ id := 1, company_id := 1, external_id := "j1", title := "Engineer",
           department := none, location := none, job_type := none,
           external_url := "https://x/1", content_hash := "h1",
           raw_data := { id := "j1", title := "Engineer", location_name := "",
                         departments := [], absolute_url := "https://x/1", metadata := [] },
           first_seen_at := 0, last_seen_at := 0, is_active := true, company_name := "Acme" }]
        [{ alert_id := 1, job_id := 1, notification_type := "discord", status := "sent" }]
        { id := 1, user_id := "u1", name := "a1", is_active := true,
          company_slugs := ["acme"], title_keywords := [], title_exclude_keywords := [],
          departments := [], locations := [], job_types := [],
          include_remote := true, discord_webhook_url := some "https://discord/wh",
          last_notified_at := none }
        true).1.countP (fun n => n.alert_id == 1 && n.job_id == 1)) = 2 := by
  refine ⟨by decide, by decide⟩

end RushJob
